import Mathlib

/-!
Shallow embedding of the MHT-CET cutoff table client
(src/client/pages/Index.tsx) together with the data-source fallback chain
of its fetch effect. JavaScript numbers are modelled as exact rationals
plus the special values NaN and ±Infinity (the claims never involve
values large enough for double rounding to matter); JavaScript strings
are Lean strings, with the relevant String.prototype operations
(trim, toLowerCase, includes) modelled over their character lists.
-/

/-! ## JavaScript numeric values -/

/-- A JavaScript number as it can arise from parseInt / parseFloat:
an ordinary (finite) number, NaN, or a signed infinity. -/
inductive JSNum where
  | nan
  | posInf
  | negInf
  | num (q : ℚ)
deriving DecidableEq, Repr

/-- JavaScript comparison `x <= u` where `x` is the (possibly missing or
non-numeric, hence `Option`) field value of a record and `u` a `JSNum`.
A missing field converts to NaN, and every comparison involving NaN is
false. -/
def jleOpt : Option ℚ → JSNum → Bool
  | none, _ => false
  | some _, .nan => false
  | some _, .posInf => true
  | some _, .negInf => false
  | some x, .num q => decide (x ≤ q)

/-- JavaScript comparison `x >= u`; see `jleOpt`. -/
def jgeOpt : Option ℚ → JSNum → Bool
  | none, _ => false
  | some _, .nan => false
  | some _, .posInf => false
  | some _, .negInf => true
  | some x, .num q => decide (q ≤ x)

/-! ## JavaScript string primitives -/

/-- Drop leading whitespace characters from a character list. -/
def dropWhileWS : List Char → List Char
  | [] => []
  | c :: cs => if c.isWhitespace then dropWhileWS cs else c :: cs

/-- Whitespace trimming on both ends of a character list, modelling
String.prototype.trim. -/
def trimList (l : List Char) : List Char :=
  ((dropWhileWS (dropWhileWS l).reverse)).reverse

/-- Model of String.prototype.trim. -/
def jsTrim (s : String) : String := ⟨trimList s.data⟩

/-- Model of String.prototype.toLowerCase (ASCII letters; the dataset and
the claims only involve ASCII text). -/
def jsToLower (s : String) : String := ⟨s.data.map Char.toLower⟩

/-- Does the second list start with the first one? -/
def hasPrefixList : List Char → List Char → Bool
  | [], _ => true
  | _ :: _, [] => false
  | a :: as, b :: bs => a == b && hasPrefixList as bs

/-- Does `needle` occur as a contiguous sublist of `hay`? -/
def isSubstrList (needle : List Char) : List Char → Bool
  | [] => needle.isEmpty
  | c :: cs => hasPrefixList needle (c :: cs) || isSubstrList needle cs

/-- Model of String.prototype.includes: `jsIncludes s needle` is true iff
`needle` occurs as a substring of `s`. -/
def jsIncludes (s needle : String) : Bool := isSubstrList needle.data s.data

/-! ## parseInt and parseFloat -/

/-- Value of a decimal digit character, if it is one. -/
def digitVal10 (c : Char) : Option Nat :=
  if '0' ≤ c ∧ c ≤ '9' then some (c.toNat - '0'.toNat) else none

/-- Value of a hexadecimal digit character, if it is one. -/
def digitVal16 (c : Char) : Option Nat :=
  if '0' ≤ c ∧ c ≤ '9' then some (c.toNat - '0'.toNat)
  else if 'a' ≤ c ∧ c ≤ 'f' then some (c.toNat - 'a'.toNat + 10)
  else if 'A' ≤ c ∧ c ≤ 'F' then some (c.toNat - 'A'.toNat + 10)
  else none

/-- Accumulate the longest leading run of digits (per `dv`) in the given
base; `none` when no digit at all was consumed. -/
def parseDigitsAux (base : Nat) (dv : Char → Option Nat) :
    List Char → Option Nat → Option Nat
  | [], acc => acc
  | c :: cs, acc =>
    match dv c with
    | some d => parseDigitsAux base dv cs (some (acc.getD 0 * base + d))
    | none => acc

/-- Model of the JavaScript global parseInt with the radix argument
omitted: skip leading whitespace, optional sign, optional 0x/0X prefix
switching to base 16, then the longest run of digits; NaN when that run
is empty. (Exact integer values; JavaScript would round results beyond
2^53, which no claim involves.) -/
def parseIntJS (s : String) : JSNum :=
  let cs := dropWhileWS s.data
  let signSplit :=
    match cs with
    | '-' :: t => (true, t)
    | '+' :: t => (false, t)
    | _ => (false, cs)
  let baseSplit :=
    match signSplit.2 with
    | '0' :: 'x' :: t => (16, digitVal16, t)
    | '0' :: 'X' :: t => (16, digitVal16, t)
    | rest => (10, digitVal10, rest)
  match parseDigitsAux baseSplit.1 baseSplit.2.1 baseSplit.2.2 none with
  | some n => JSNum.num (if signSplit.1 then -(n : ℚ) else (n : ℚ))
  | none => JSNum.nan

/-- Is this a decimal digit character? -/
def isDigit10 (c : Char) : Bool := decide ('0' ≤ c) && decide (c ≤ '9')

/-- Numeric value of a list of decimal digit characters. -/
def decDigitsVal (ds : List Char) : Nat :=
  ds.foldl (fun a c => a * 10 + (c.toNat - 48)) 0

/-- Parse the exponent part of a decimal literal after the e/E marker:
optional sign then digits; `none` when no digit follows (in which case
parseFloat does not consume the exponent marker). -/
def parseExpPart (t : List Char) : Option (Bool × Nat) :=
  let signSplit :=
    match t with
    | '-' :: u => (true, u)
    | '+' :: u => (false, u)
    | _ => (false, t)
  let eds := signSplit.2.takeWhile isDigit10
  if eds = [] then none else some (signSplit.1, decDigitsVal eds)

/-- Model of the JavaScript global parseFloat: skip leading whitespace,
optional sign, then the longest prefix that is a decimal literal
(digits, optional fraction, optional exponent) or the literal Infinity;
NaN when there is no such prefix. (Exact rational values; JavaScript
would round to the nearest double, which no claim involves.) -/
def parseFloatJS (s : String) : JSNum :=
  let cs := dropWhileWS s.data
  let signSplit :=
    match cs with
    | '-' :: t => (true, t)
    | '+' :: t => (false, t)
    | _ => (false, cs)
  let neg := signSplit.1
  let cs1 := signSplit.2
  if hasPrefixList "Infinity".data cs1 then
    (if neg then JSNum.negInf else JSNum.posInf)
  else
    let intSplit := cs1.span isDigit10
    let ids := intSplit.1
    let fracSplit :=
      match intSplit.2 with
      | '.' :: t => t.span isDigit10
      | rest => ([], rest)
    let fds := fracSplit.1
    if ids = [] ∧ fds = [] then JSNum.nan
    else
      let mant : ℚ :=
        if fds = [] then (decDigitsVal ids : ℚ)
        else (decDigitsVal ids : ℚ) + (decDigitsVal fds : ℚ) / ((10 : ℚ) ^ fds.length)
      let expPart : Option (Bool × Nat) :=
        match fracSplit.2 with
        | 'e' :: t => parseExpPart t
        | 'E' :: t => parseExpPart t
        | _ => none
      let v : ℚ :=
        match expPart with
        | some (eneg, e) => if eneg then mant / (10 : ℚ) ^ e else mant * (10 : ℚ) ^ e
        | none => mant
      JSNum.num (if neg then -v else v)

/-! ## The record type (interface CutoffData) -/

/-- One row of the cutoff dataset. `Rank` and `Percentile` are `none`
when the JSON field is missing or not a number (the code's
typeof-number checks fail on such a value); the two name fields are
`none` when missing/undefined (the code defaults them with `|| ""`). -/
structure CutoffData where
  Rank : Option ℚ
  Percentile : Option ℚ
  choiceCode : String
  instituteName : Option String
  courseName : Option String
  type : String
deriving DecidableEq, Repr

/-! ## Stage 1: the rank/percentile threshold filter -/

/-- The predicate of `data.filter` in the threshold branch of
`filteredAndSortedData`: `userRank`/`userPercentile` are `parseInt`/
`parseFloat` of the filter strings when those are truthy (non-empty),
`matches` starts false, is OR-ed with `item.Percentile <= userPercentile`
when the percentile filter is set, then with `item.Rank >= userRank`
when the rank filter is set. -/
def thresholdMatches (rankFilter percentileFilter : String) (item : CutoffData) : Bool :=
  let userRank : Option JSNum :=
    if rankFilter ≠ "" then some (parseIntJS rankFilter) else none
  let userPercentile : Option JSNum :=
    if percentileFilter ≠ "" then some (parseFloatJS percentileFilter) else none
  let m1 : Bool :=
    match userPercentile with
    | some p => false || jleOpt item.Percentile p
    | none => false
  match userRank with
  | some r => m1 || jgeOpt item.Rank r
  | none => m1

/-- The threshold stage: the filter runs only when at least one of the
two filter strings is truthy; otherwise the stage passes the (copied)
data through unchanged. -/
def thresholdStage (rankFilter percentileFilter : String)
    (data : List CutoffData) : List CutoffData :=
  if rankFilter ≠ "" ∨ percentileFilter ≠ "" then
    data.filter (thresholdMatches rankFilter percentileFilter)
  else data

/-! ## Stage 2: the text search filter -/

/-- The predicate of `filtered.filter` in the search branch:
`searchLower` is the lowercased-then-trimmed search string, the name
fields default to the empty string, and the record passes when either
lowercased name contains `searchLower`. -/
def searchMatches (searchLower : String) (item : CutoffData) : Bool :=
  let instituteName := item.instituteName.getD ""
  let courseName := item.courseName.getD ""
  jsIncludes (jsToLower instituteName) searchLower
    || jsIncludes (jsToLower courseName) searchLower

/-- The search stage: runs only when the trimmed search string is
truthy (non-empty). -/
def searchStage (searchFilter : String) (l : List CutoffData) : List CutoffData :=
  if jsTrim searchFilter ≠ "" then
    l.filter (searchMatches (jsTrim (jsToLower searchFilter)))
  else l

/-! ## Stage 3: the sort -/

/-- The two sortable columns (type SortField of the source). -/
inductive SortField where
  | Rank
  | Percentile
deriving DecidableEq, Repr

/-- Sort direction (type SortOrder of the source). -/
inductive SortOrder where
  | asc
  | desc
deriving DecidableEq, Repr

/-- The field access `a[sortField]` of the comparator. -/
def sortKey (field : SortField) (item : CutoffData) : Option ℚ :=
  match field with
  | .Rank => item.Rank
  | .Percentile => item.Percentile

/-- The comparator passed to `filtered.sort`: when both values are
numbers it returns `aValue - bValue` (ascending) or `bValue - aValue`
(descending); otherwise it returns 0. -/
def sortCmp (field : SortField) (order : SortOrder) (a b : CutoffData) : ℚ :=
  match sortKey field a, sortKey field b with
  | some x, some y => if order = .asc then x - y else y - x
  | _, _ => 0

/-- `a` may be placed no later than `b` exactly when the comparator is
nonpositive; a stable sort with this relation models the ECMAScript
stable Array.prototype.sort. -/
def sortLe (field : SortField) (order : SortOrder) (a b : CutoffData) : Bool :=
  decide (sortCmp field order a b ≤ 0)

/-- The sort stage, modelled as a stable merge sort with `sortLe`. -/
def sortStage (field : SortField) (order : SortOrder)
    (l : List CutoffData) : List CutoffData :=
  l.mergeSort (sortLe field order)

/-! ## The composed pipeline and pagination -/

/-- The memoized `filteredAndSortedData`: threshold filter, then search
filter, then sort. -/
def filteredAndSortedData (data : List CutoffData)
    (rankFilter percentileFilter searchFilter : String)
    (sortField : SortField) (sortOrder : SortOrder) : List CutoffData :=
  sortStage sortField sortOrder
    (searchStage searchFilter (thresholdStage rankFilter percentileFilter data))

/-- The fixed page size. -/
def itemsPerPage : Nat := 20

/-- The memoized `paginatedData`:
`filteredAndSortedData.slice(startIndex, startIndex + itemsPerPage)`
with `startIndex = (currentPage - 1) * itemsPerPage`. -/
def paginatedData (filtered : List CutoffData) (currentPage : Nat) : List CutoffData :=
  (filtered.drop ((currentPage - 1) * itemsPerPage)).take itemsPerPage

/-- `Math.ceil(filteredAndSortedData.length / itemsPerPage)` on natural
numbers. -/
def totalPagesOf (filteredLen : Nat) : Nat :=
  (filteredLen + itemsPerPage - 1) / itemsPerPage

/-- What the component derives from the pipeline for rendering. -/
structure QueryOutput where
  visible : List CutoffData
  totalMatches : Nat
  totalPages : Nat
deriving DecidableEq, Repr

/-- The whole query pipeline of the component for one set of inputs:
`visible` is `paginatedData`, `totalMatches` the length of
`filteredAndSortedData` (the "Showing X of Y" count), `totalPages` its
ceiling division by the page size. -/
def applyPipeline (data : List CutoffData)
    (rankFilter percentileFilter searchFilter : String)
    (sortField : SortField) (sortOrder : SortOrder)
    (currentPage : Nat) : QueryOutput :=
  let filtered :=
    filteredAndSortedData data rankFilter percentileFilter searchFilter sortField sortOrder
  { visible := paginatedData filtered currentPage
    totalMatches := filtered.length
    totalPages := totalPagesOf filtered.length }

/-- Per-record acceptance of stage 1, read off from `thresholdStage`:
when neither filter string is truthy every record is kept. -/
def stage1Keep (rankFilter percentileFilter : String) (item : CutoffData) : Bool :=
  if rankFilter ≠ "" ∨ percentileFilter ≠ "" then
    thresholdMatches rankFilter percentileFilter item
  else true

/-- Per-record acceptance of stage 2, read off from `searchStage`. -/
def stage2Keep (searchFilter : String) (item : CutoffData) : Bool :=
  if jsTrim searchFilter ≠ "" then
    searchMatches (jsTrim (jsToLower searchFilter)) item
  else true

/-! ## The UI state machine (filter, sort and page state of the component) -/

/-- The useState cells of the component that drive the pipeline. -/
structure UIState where
  rankFilter : String
  percentileFilter : String
  searchFilter : String
  sortField : SortField
  sortOrder : SortOrder
  currentPage : Nat
deriving DecidableEq, Repr

/-- Clicking a sortable column header (handleSort): clicking the current
field toggles the order, clicking the other field selects it with
ascending order; both branches then reset the page to 1. -/
def handleSort (field : SortField) (st : UIState) : UIState :=
  if field = st.sortField then
    { st with
      sortOrder := if st.sortOrder = .asc then .desc else .asc
      currentPage := 1 }
  else
    { st with sortField := field, sortOrder := .asc, currentPage := 1 }

/-- The Clear All button (clearFilters): empties the three filter
fields and resets the page to 1. -/
def clearFilters (st : UIState) : UIState :=
  { st with
    rankFilter := ""
    percentileFilter := ""
    searchFilter := ""
    currentPage := 1 }

/-- The onChange handler of the rank Input: it only stores the new
value (`setRankFilter(e.target.value)`). -/
def onRankFilterChange (v : String) (st : UIState) : UIState :=
  { st with rankFilter := v }

/-- The onChange handler of the percentile Input. -/
def onPercentileFilterChange (v : String) (st : UIState) : UIState :=
  { st with percentileFilter := v }

/-- The onChange handler of the search Input. -/
def onSearchFilterChange (v : String) (st : UIState) : UIState :=
  { st with searchFilter := v }

/-! ## The data-source adapter (fetchData) -/

/-- The observable outcome of one candidate fetch: the request (or the
parsing of its body, including the JSON.parse of the allorigins
`contents` field) threw, or the response arrived with a non-ok status,
or a JSON payload was obtained; `isArray` records whether that payload
is an array and `tag` identifies it. -/
inductive CandidateOutcome where
  | throws
  | notOk
  | json (isArray : Bool) (tag : Nat)
deriving DecidableEq, Repr

/-- What the fetch effect ends in: `setData` with some payload, or
`setError` with a message. -/
inductive LoadResult where
  | success (tag : Nat)
  | failure (msg : String)
deriving DecidableEq, Repr

/-- The server-endpoint attempt (`fetch("/api/cutoffs")`): on an ok
response the parsed body is accepted with no further check; a throw or
a non-ok status falls through to the proxies. -/
def tryServer : CandidateOutcome → Option Nat
  | .json _ tag => some tag
  | _ => none

/-- One iteration of the proxy loop: the payload is accepted only when
`jsonData && Array.isArray(jsonData)` holds; everything else (throw,
non-ok status, non-array payload) continues with the next candidate. -/
def tryProxy : CandidateOutcome → Option Nat
  | .json true tag => some tag
  | _ => none

/-- The final direct-fetch attempt: like the server attempt, an ok
response's parsed body is accepted with no array check. -/
def tryDirect : CandidateOutcome → Option Nat
  | .json _ tag => some tag
  | _ => none

/-- The fallback chain of fetchData over the outcomes of its five
candidates, in source order: the server endpoint, the three CORS
proxies, the direct fetch; if none is accepted the effect ends in the
error message of the final `throw new Error(...)`. -/
def fetchData (server proxy1 proxy2 proxy3 direct : CandidateOutcome) : LoadResult :=
  match tryServer server with
  | some t => .success t
  | none =>
    match tryProxy proxy1 with
    | some t => .success t
    | none =>
      match tryProxy proxy2 with
      | some t => .success t
      | none =>
        match tryProxy proxy3 with
        | some t => .success t
        | none =>
          match tryDirect direct with
          | some t => .success t
          | none => .failure "All data sources failed. Please try again later."

/-- Written after the spec wording of the search claim, for comparison
with the code-side predicate: `needle` is a case-insensitive substring
of `hay` when the lowercased needle occurs in the lowercased hay. -/
def ciSubstrSpec (needle hay : String) : Prop :=
  jsIncludes (jsToLower hay) (jsToLower needle) = true

/-- A concrete dataset with 41 records, for the pagination boundary
scenario of the spec. -/
def data41 : List CutoffData :=
  List.replicate 41 ⟨some 1, some 99, "c", some "i", some "n", "t"⟩

/-! ## Helper lemmas -/

lemma thresholdMatches_nanRank (rF : String) (item : CutoffData)
    (h : rF ≠ "") (hn : parseIntJS rF = .nan) :
    thresholdMatches rF "" item = false := by
  simp only [thresholdMatches, if_pos h, hn]
  simp only [ne_eq, not_true_eq_false, if_false, reduceIte]
  cases item.Rank <;> rfl

lemma thresholdMatches_nanPercentile (pF : String) (item : CutoffData)
    (h : pF ≠ "") (hn : parseFloatJS pF = .nan) :
    thresholdMatches "" pF item = false := by
  simp only [thresholdMatches, if_pos h, hn]
  simp only [ne_eq, not_true_eq_false, if_false, reduceIte]
  cases item.Percentile <;> rfl

lemma searchStage_nil (sF : String) : searchStage sF [] = [] := by
  unfold searchStage
  split <;> rfl

lemma sortStage_nil (f : SortField) (o : SortOrder) : sortStage f o [] = [] := by
  simp [sortStage]

/-! ## C10 -/

/-- C10: if the rank filter string is non-empty but parses to NaN while
the percentile filter is empty, the threshold stage excludes every
record and totalMatches is 0; symmetrically for a NaN percentile filter
with an empty rank filter. -/
theorem C10_nan_threshold_excludes_all (rF pF sF : String)
    (data : List CutoffData) (f : SortField) (o : SortOrder) (page : Nat) :
    (rF ≠ "" → parseIntJS rF = .nan →
      thresholdStage rF "" data = []
        ∧ (applyPipeline data rF "" sF f o page).totalMatches = 0)
    ∧ (pF ≠ "" → parseFloatJS pF = .nan →
      thresholdStage "" pF data = []
        ∧ (applyPipeline data "" pF sF f o page).totalMatches = 0) := by
  constructor
  · intro h hn
    have hts : thresholdStage rF "" data = [] := by
      unfold thresholdStage
      rw [if_pos (Or.inl h)]
      simp only [List.filter_eq_nil_iff]
      intro a _
      simp [thresholdMatches_nanRank rF a h hn]
    refine ⟨hts, ?_⟩
    simp [applyPipeline, filteredAndSortedData, hts, searchStage_nil, sortStage_nil]
  · intro h hn
    have hts : thresholdStage "" pF data = [] := by
      unfold thresholdStage
      rw [if_pos (Or.inr h)]
      simp only [List.filter_eq_nil_iff]
      intro a _
      simp [thresholdMatches_nanPercentile pF a h hn]
    refine ⟨hts, ?_⟩
    simp [applyPipeline, filteredAndSortedData, hts, searchStage_nil, sortStage_nil]

/-- Witness for C10 at the concrete filter strings "abc" (parseInt
yields NaN) and "xy.z"-free "xyz" (parseFloat yields NaN) on a
one-record dataset. -/
theorem C10_witness :
    thresholdStage "abc" "" [⟨some 5000, some 95, "B", none, none, ""⟩] = []
      ∧ thresholdStage "" "xyz" [⟨some 5000, some 95, "B", none, none, ""⟩] = [] :=
  ⟨((C10_nan_threshold_excludes_all "abc" "xyz" ""
      [⟨some 5000, some 95, "B", none, none, ""⟩] .Rank .asc 1).1
      (by decide) (by decide)).1,
    ((C10_nan_threshold_excludes_all "abc" "xyz" ""
      [⟨some 5000, some 95, "B", none, none, ""⟩] .Rank .asc 1).2
      (by decide) (by decide)).1⟩

/-! ## C8 -/

/-- C8: the query pipeline is deterministic and idempotent — two
invocations with identical dataset, filter, sort and page inputs yield
identical outputs; in this embedding the pipeline is a total pure
function of exactly those four inputs, so agreement of the inputs
forces agreement of visible, totalMatches and totalPages. -/
theorem C8_pipeline_deterministic
    (d1 d2 : List CutoffData) (rF1 rF2 pF1 pF2 sF1 sF2 : String)
    (f1 f2 : SortField) (o1 o2 : SortOrder) (p1 p2 : Nat)
    (hd : d1 = d2) (hr : rF1 = rF2) (hp : pF1 = pF2) (hs : sF1 = sF2)
    (hf : f1 = f2) (ho : o1 = o2) (hpg : p1 = p2) :
    applyPipeline d1 rF1 pF1 sF1 f1 o1 p1 = applyPipeline d2 rF2 pF2 sF2 f2 o2 p2 := by
  subst hd hr hp hs hf ho hpg
  rfl

/-- Witness for C8 at concrete inputs. -/
theorem C8_witness :
    applyPipeline [⟨some 1, some 99, "c", some "i", some "n", "t"⟩] "" "" "" .Rank .asc 1
      = applyPipeline [⟨some 1, some 99, "c", some "i", some "n", "t"⟩] "" "" "" .Rank .asc 1 :=
  C8_pipeline_deterministic _ _ _ _ _ _ _ _ _ _ _ _ _ _
    rfl rfl rfl rfl rfl rfl rfl

/-! ## C4 -/

/-- C4 counterexample: editing the rank filter field changes
FilterCriteria but leaves the page number at 5 — the onChange handlers
of the three filter Inputs never call setCurrentPage(1), so the claimed
reset-on-filter-change invariant fails. -/
theorem C4_counterexample :
    (onRankFilterChange "100" ⟨"", "", "", .Rank, .asc, 5⟩).rankFilter
        ≠ (⟨"", "", "", .Rank, .asc, 5⟩ : UIState).rankFilter
      ∧ (onRankFilterChange "100" ⟨"", "", "", .Rank, .asc, 5⟩).currentPage ≠ 1 := by
  constructor
  · decide
  · decide

/-- C4 amended: the page number is reset to 1 by every sort-header
click (handleSort) and by the clear action (clearFilters), while the
filter-field onChange handlers leave the page number unchanged (they
only store the new field value). -/
theorem C4_page_reset_amended :
    (∀ (f : SortField) (st : UIState), (handleSort f st).currentPage = 1)
    ∧ (∀ st : UIState, (clearFilters st).currentPage = 1)
    ∧ (∀ (v : String) (st : UIState),
        (onRankFilterChange v st).currentPage = st.currentPage
          ∧ (onPercentileFilterChange v st).currentPage = st.currentPage
          ∧ (onSearchFilterChange v st).currentPage = st.currentPage) := by
  refine ⟨fun f st => ?_, fun st => rfl, fun v st => ⟨rfl, rfl, rfl⟩⟩
  unfold handleSort
  split <;> rfl

/-! ## C5 -/

/-- C5 counterexample: the server-endpoint candidate returns an ok
response whose JSON payload is not an array, while the next candidate
(the first CORS proxy) would return a valid array; fetchData
nevertheless accepts the server payload — the server branch has no
Array.isArray check, contradicting the claim that every candidate's
result is used only if it is a valid array. -/
theorem C5_counterexample :
    fetchData (.json false 7) (.json true 1) (.json true 2) (.json true 3) (.json true 4)
      = .success 7 := rfl

/-- C5 amended: candidates are tried in the fixed priority order and
the adapter stops at the first accepted one, but only the three CORS
proxy candidates require an array payload; the server endpoint and the
direct fetch accept any successfully parsed JSON payload. A throw or a
non-success status advances every candidate, a non-array payload
advances only a proxy candidate, and when every candidate fails the
adapter surfaces the human-readable message of its final throw. -/
theorem C5_adapter_amended :
    (∀ (b : Bool) (t : Nat) (p1 p2 p3 d : CandidateOutcome),
        fetchData (.json b t) p1 p2 p3 d = .success t)
    ∧ (∀ (s : CandidateOutcome) (t : Nat) (p2 p3 d : CandidateOutcome),
        tryServer s = none → fetchData s (.json true t) p2 p3 d = .success t)
    ∧ (∀ (s p1 : CandidateOutcome) (t : Nat) (p3 d : CandidateOutcome),
        tryServer s = none → tryProxy p1 = none →
        fetchData s p1 (.json true t) p3 d = .success t)
    ∧ (∀ (s p1 p2 : CandidateOutcome) (t : Nat) (d : CandidateOutcome),
        tryServer s = none → tryProxy p1 = none → tryProxy p2 = none →
        fetchData s p1 p2 (.json true t) d = .success t)
    ∧ (∀ (s p1 p2 p3 : CandidateOutcome) (b : Bool) (t : Nat),
        tryServer s = none → tryProxy p1 = none → tryProxy p2 = none →
        tryProxy p3 = none → fetchData s p1 p2 p3 (.json b t) = .success t)
    ∧ (∀ s p1 p2 p3 d : CandidateOutcome,
        tryServer s = none → tryProxy p1 = none → tryProxy p2 = none →
        tryProxy p3 = none → tryDirect d = none →
        fetchData s p1 p2 p3 d
          = .failure "All data sources failed. Please try again later.")
    ∧ (∀ (b : Bool) (t : Nat),
        tryProxy (.json b t) = if b then some t else none)
    ∧ (tryServer .throws = none ∧ tryServer .notOk = none
        ∧ tryProxy .throws = none ∧ tryProxy .notOk = none
        ∧ tryDirect .throws = none ∧ tryDirect .notOk = none) := by
  refine ⟨fun b t p1 p2 p3 d => rfl, ?_, ?_, ?_, ?_, ?_, ?_,
    rfl, rfl, rfl, rfl, rfl, rfl⟩
  · intro s t p2 p3 d hs
    simp only [fetchData, hs]
    rfl
  · intro s p1 t p3 d hs h1
    simp only [fetchData, hs, h1]
    rfl
  · intro s p1 p2 t d hs h1 h2
    simp only [fetchData, hs, h1, h2]
    rfl
  · intro s p1 p2 p3 b t hs h1 h2 h3
    simp only [fetchData, hs, h1, h2, h3]
    rfl
  · intro s p1 p2 p3 d hs h1 h2 h3 hd
    simp only [fetchData, hs, h1, h2, h3, hd]
  · intro b t
    cases b <;> rfl

/-- Witness for C5 amended: the server attempt throws and the first
proxy returns a valid array, which is accepted. -/
theorem C5_witness :
    fetchData .throws (.json true 9) .notOk .notOk .throws = .success 9 :=
  C5_adapter_amended.2.1 .throws 9 .notOk .notOk .throws rfl

/-! ## C1 -/

/-- C1: the threshold stage has inclusive-OR semantics. When neither
filter is set the stage passes all records; when the set filters parse
to numbers, a record (with numeric fields) is kept iff its percentile
is at most the set percentile threshold or its rank is at least the set
rank threshold; and concretely, with rankThreshold 1000 and
percentileThreshold 90, the record with rank 500 / percentile 95 is
excluded while the record with rank 5000 / percentile 95 is kept. -/
theorem C1_threshold_or_semantics :
    (∀ data : List CutoffData, thresholdStage "" "" data = data)
    ∧ (∀ (rF pF : String) (item : CutoffData) (rank perc : ℚ),
        item.Rank = some rank → item.Percentile = some perc →
        (rF = "" ∨ ∃ r : ℚ, parseIntJS rF = .num r) →
        (pF = "" ∨ ∃ p : ℚ, parseFloatJS pF = .num p) →
        (thresholdMatches rF pF item = true ↔
          ((pF ≠ "" ∧ ∃ p : ℚ, parseFloatJS pF = .num p ∧ perc ≤ p)
            ∨ (rF ≠ "" ∧ ∃ r : ℚ, parseIntJS rF = .num r ∧ rank ≥ r))))
    ∧ thresholdStage "1000" "90"
        [⟨some 500, some 95, "A", none, none, ""⟩,
          ⟨some 5000, some 95, "B", none, none, ""⟩]
      = [⟨some 5000, some 95, "B", none, none, ""⟩] := by
  refine ⟨fun data => by simp [thresholdStage], ?_, by decide⟩
  intro rF pF item rank perc hR hP hrf hpf
  by_cases hr0 : rF = ""
  · subst hr0
    by_cases hp0 : pF = ""
    · subst hp0
      simp [thresholdMatches]
    · rcases hpf with h | ⟨p, hp⟩
      · exact absurd h hp0
      · simp [thresholdMatches, hp0, hp, hP, jleOpt]
  · rcases hrf with h | ⟨r, hr⟩
    · exact absurd h hr0
    by_cases hp0 : pF = ""
    · subst hp0
      simp [thresholdMatches, hr0, hr, hR, jgeOpt, ge_iff_le]
    · rcases hpf with h | ⟨p, hp⟩
      · exact absurd h hp0
      · simp [thresholdMatches, hr0, hp0, hr, hp, hR, hP, jleOpt, jgeOpt,
          ge_iff_le, Bool.or_eq_true, decide_eq_true_eq]

/-- Witness for C1: the record with rank 5000 / percentile 95 passes
the threshold filter for rankThreshold 1000 and percentileThreshold
90. -/
theorem C1_witness :
    thresholdMatches "1000" "90" ⟨some 5000, some 95, "B", none, none, ""⟩ = true :=
  (C1_threshold_or_semantics.2.1 "1000" "90"
      ⟨some 5000, some 95, "B", none, none, ""⟩ 5000 95 rfl rfl
      (Or.inr ⟨1000, by decide⟩) (Or.inr ⟨90, by decide⟩)).mpr
    (Or.inr ⟨by decide, 1000, by decide, by norm_num⟩)

/-! ## C2 -/

/-- C2: totalMatches is the number of records satisfying both the
threshold stage and the search stage — the two stages compose as a
sequential AND over the per-record acceptance predicates (and the sort
stage does not change the count). -/
theorem C2_totalMatches_composition (data : List CutoffData)
    (rF pF sF : String) (f : SortField) (o : SortOrder) (page : Nat) :
    (applyPipeline data rF pF sF f o page).totalMatches
      = (data.filter (fun item => stage1Keep rF pF item && stage2Keep sF item)).length := by
  show (filteredAndSortedData data rF pF sF f o).length = _
  unfold filteredAndSortedData sortStage
  rw [List.length_mergeSort]
  unfold searchStage thresholdStage stage1Keep stage2Keep
  by_cases h1 : rF ≠ "" ∨ pF ≠ "" <;> by_cases h2 : jsTrim sF ≠ "" <;>
    simp [h1, h2, List.filter_filter, Bool.and_comm]

/-! ## C3 -/

lemma sortLe_refl (f : SortField) (o : SortOrder) (a : CutoffData) :
    sortLe f o a a = true := by
  unfold sortLe sortCmp
  cases h : sortKey f a <;> cases o <;> simp [h]

lemma sortStage_replicate (f : SortField) (o : SortOrder) (n : Nat) (r : CutoffData) :
    sortStage f o (List.replicate n r) = List.replicate n r := by
  apply List.mergeSort_of_sorted
  rw [List.pairwise_replicate]
  exact Or.inr (sortLe_refl f o r)

lemma jsTrim_empty : jsTrim "" = "" := rfl

lemma filteredAndSorted_data41 :
    filteredAndSortedData data41 "" "" "" .Rank .asc = data41 := by
  unfold filteredAndSortedData
  have h1 : thresholdStage "" "" data41 = data41 := by simp [thresholdStage]
  have h2 : searchStage "" data41 = data41 := by
    unfold searchStage
    rw [if_neg (by simp [jsTrim_empty])]
  rw [h1, h2]
  unfold data41
  exact sortStage_replicate _ _ _ _

/-- C3: visible is the 0-based slice of the filtered list from
(p-1)*20 to p*20, totalPages is the ceiling of totalMatches/20
(characterized by totalMatches ≤ totalPages*20 < totalMatches+20, which
also forces totalPages = 0 at 0 matches), and the page number is not
clamped: at 41 matches, totalPages is 3, page 3 holds exactly 1 record
and page 4 is empty. -/
theorem C3_pagination :
    (∀ (data : List CutoffData) (rF pF sF : String) (f : SortField)
        (o : SortOrder) (p : Nat), 1 ≤ p →
        ((applyPipeline data rF pF sF f o p).visible
            = ((filteredAndSortedData data rF pF sF f o).drop ((p - 1) * 20)).take 20
          ∧ (applyPipeline data rF pF sF f o p).totalMatches
              ≤ (applyPipeline data rF pF sF f o p).totalPages * 20
          ∧ (applyPipeline data rF pF sF f o p).totalPages * 20
              < (applyPipeline data rF pF sF f o p).totalMatches + 20))
    ∧ ((applyPipeline data41 "" "" "" .Rank .asc 1).totalMatches = 41
        ∧ (applyPipeline data41 "" "" "" .Rank .asc 1).totalPages = 3
        ∧ (applyPipeline data41 "" "" "" .Rank .asc 3).visible.length = 1
        ∧ (applyPipeline data41 "" "" "" .Rank .asc 4).visible = []) := by
  constructor
  · intro data rF pF sF f o p hp
    refine ⟨rfl, ?_, ?_⟩
    · simp only [applyPipeline, totalPagesOf, itemsPerPage]
      omega
    · simp only [applyPipeline, totalPagesOf, itemsPerPage]
      omega
  · have hlen : (filteredAndSortedData data41 "" "" "" .Rank .asc).length = 41 := by
      rw [filteredAndSorted_data41]
      simp [data41]
    refine ⟨?_, ?_, ?_, ?_⟩
    · simp only [applyPipeline]
      exact hlen
    · simp only [applyPipeline, hlen]
      rfl
    · show (paginatedData (filteredAndSortedData data41 "" "" "" .Rank .asc) 3).length = 1
      rw [filteredAndSorted_data41]
      simp [paginatedData, data41, itemsPerPage]
    · show paginatedData (filteredAndSortedData data41 "" "" "" .Rank .asc) 4 = []
      rw [filteredAndSorted_data41]
      simp [paginatedData, data41, itemsPerPage]

/-- Witness for C3 on the empty dataset at page 1. -/
theorem C3_witness :
    (applyPipeline [] "" "" "" .Rank .asc 1).totalMatches
      ≤ (applyPipeline [] "" "" "" .Rank .asc 1).totalPages * 20 :=
  (C3_pagination.1 [] "" "" "" .Rank .asc 1 (by decide)).2.1

/-! ## C6 -/

lemma toNat_ofNat_valid {n : Nat} (h : n.isValidChar) : (Char.ofNat n).toNat = n := by
  rw [Char.ofNat, dif_pos h]
  rfl

lemma isWhitespace_of_range (c : Char) (h1 : 65 ≤ c.toNat) (h2 : c.toNat ≤ 122) :
    c.isWhitespace = false := by
  have hsp : c ≠ ' ' := fun he => by subst he; exact absurd h1 (by decide)
  have hta : c ≠ '\t' := fun he => by subst he; exact absurd h1 (by decide)
  have hcr : c ≠ '\r' := fun he => by subst he; exact absurd h1 (by decide)
  have hlf : c ≠ '\n' := fun he => by subst he; exact absurd h1 (by decide)
  simp [Char.isWhitespace, hsp, hta, hcr, hlf]

lemma isWhitespace_toLower (c : Char) :
    (Char.toLower c).isWhitespace = c.isWhitespace := by
  simp only [Char.toLower]
  split
  · rename_i h
    have hv : (c.toNat + 32).isValidChar := Or.inl (by omega)
    rw [isWhitespace_of_range _ (by rw [toNat_ofNat_valid hv]; omega)
        (by rw [toNat_ofNat_valid hv]; omega),
      isWhitespace_of_range c (by omega) (by omega)]
  · rfl

lemma dropWhileWS_map_toLower (l : List Char) :
    dropWhileWS (l.map Char.toLower) = (dropWhileWS l).map Char.toLower := by
  induction l with
  | nil => rfl
  | cons c cs ih =>
    simp only [List.map_cons, dropWhileWS, isWhitespace_toLower]
    by_cases h : c.isWhitespace
    · simp [h, ih]
    · simp [h]

lemma trimList_map_toLower (l : List Char) :
    trimList (l.map Char.toLower) = (trimList l).map Char.toLower := by
  unfold trimList
  rw [dropWhileWS_map_toLower, ← List.map_reverse, dropWhileWS_map_toLower,
    List.map_reverse]

lemma jsTrim_jsToLower (s : String) : jsTrim (jsToLower s) = jsToLower (jsTrim s) :=
  congrArg String.mk (trimList_map_toLower s.data)

lemma jsToLower_eq_empty_iff (s : String) : jsToLower s = "" ↔ s = "" := by
  cases s with
  | mk l => simp [jsToLower, String.ext_iff]

/-- C6: the search stage runs only when the trimmed search text is
non-empty; a record passes iff the trimmed search text is a
case-insensitive substring of its institute name or of its course name;
and a record whose institute name is missing (treated as the empty
string, with no possibility of a throw since the predicate is total) is
kept iff its course name matches. -/
theorem C6_search_filter :
    (∀ (sF : String) (l : List CutoffData), jsTrim sF = "" → searchStage sF l = l)
    ∧ (∀ (sF : String) (l : List CutoffData), jsTrim sF ≠ "" →
        searchStage sF l = l.filter (searchMatches (jsTrim (jsToLower sF))))
    ∧ (∀ (sF : String) (item : CutoffData),
        (searchMatches (jsTrim (jsToLower sF)) item = true ↔
          (ciSubstrSpec (jsTrim sF) (item.instituteName.getD "")
            ∨ ciSubstrSpec (jsTrim sF) (item.courseName.getD ""))))
    ∧ (∀ (sF : String) (item : CutoffData) (course : String),
        jsTrim sF ≠ "" → item.instituteName = none → item.courseName = some course →
        (searchMatches (jsTrim (jsToLower sF)) item = true ↔
          ciSubstrSpec (jsTrim sF) course)) := by
  refine ⟨?_, ?_, ?_, ?_⟩
  · intro sF l h
    unfold searchStage
    rw [if_neg (by simp [h])]
  · intro sF l h
    unfold searchStage
    rw [if_pos h]
  · intro sF item
    unfold searchMatches ciSubstrSpec
    rw [← jsTrim_jsToLower]
    simp [Bool.or_eq_true]
  · intro sF item course h hi hc
    have hne : jsTrim (jsToLower sF) ≠ "" := by
      rw [jsTrim_jsToLower]
      exact fun he => h ((jsToLower_eq_empty_iff _).mp he)
    have hdata : (jsTrim (jsToLower sF)).data ≠ [] := by
      intro he
      exact hne (String.ext_iff.mpr he)
    unfold searchMatches ciSubstrSpec
    rw [hi, hc, ← jsTrim_jsToLower]
    simp only [Option.getD_none, Option.getD_some, Bool.or_eq_true]
    have hempty : jsIncludes (jsToLower "") (jsTrim (jsToLower sF)) = false := by
      show (jsTrim (jsToLower sF)).data.isEmpty = false
      simp [hdata]
    rw [hempty]
    simp

/-- Witness for C6: a record with a missing institute name and course
name "Computer Science" matches the search text "comp". -/
theorem C6_witness :
    searchMatches (jsTrim (jsToLower "comp"))
        ⟨some 1, some 99, "c", none, some "Computer Science", "t"⟩ = true :=
  ((C6_search_filter.2.2.2 "comp"
      ⟨some 1, some 99, "c", none, some "Computer Science", "t"⟩
      "Computer Science" (by decide) rfl rfl).mpr (by unfold ciSubstrSpec; decide))


/-! ## C7 -/

lemma sortLe_total (f : SortField) (o : SortOrder) (a b : CutoffData) :
    sortLe f o a b || sortLe f o b a := by
  unfold sortLe sortCmp
  cases ha : sortKey f a <;> cases hb : sortKey f b <;> cases o <;>
    simp [sub_nonpos] <;> exact le_total _ _

lemma sortLe_trans_of_isSome (f : SortField) (o : SortOrder) {a b c : CutoffData}
    (hb : (sortKey f b).isSome) :
    sortLe f o a b → sortLe f o b c → sortLe f o a c := by
  obtain ⟨y, hy⟩ := Option.isSome_iff_exists.mp hb
  unfold sortLe sortCmp
  rw [hy]
  cases ha : sortKey f a <;> cases hc : sortKey f c <;> cases o <;>
    simp [sub_nonpos] <;> intro h1 h2 <;>
    first
      | exact le_trans h1 h2
      | exact le_trans h2 h1

lemma sortLe_of_key_eq (f : SortField) (o : SortOrder) {a b : CutoffData}
    (hkey : sortKey f a = sortKey f b) (ha : (sortKey f a).isSome) :
    sortLe f o a b = true := by
  obtain ⟨x, hx⟩ := Option.isSome_iff_exists.mp ha
  unfold sortLe sortCmp
  rw [hx, ← hkey, hx]
  cases o <;> simp

lemma sortLe_asc_iff (f : SortField) {a b : CutoffData} {x y : ℚ}
    (ha : sortKey f a = some x) (hb : sortKey f b = some y) :
    sortLe f .asc a b = true ↔ x ≤ y := by
  unfold sortLe sortCmp
  rw [ha, hb]
  simp [sub_nonpos]

lemma sortLe_desc_iff (f : SortField) {a b : CutoffData} {x y : ℚ}
    (ha : sortKey f a = some x) (hb : sortKey f b = some y) :
    sortLe f .desc a b = true ↔ y ≤ x := by
  unfold sortLe sortCmp
  rw [ha, hb]
  simp [sub_nonpos]

lemma map_mergeSort_of (A B : Type) (r : A → A → Bool) (s : B → B → Bool)
    (g : A → B) (l : List A) (hl : ∀ a ∈ l, ∀ b ∈ l, r a b = s (g a) (g b)) :
    (l.mergeSort r).map g = (l.map g).mergeSort s :=
  List.map_mergeSort hl

lemma pair_sublist_mergeSort_of (A : Type) (le : A → A → Bool)
    (htrans : ∀ a b c : A, le a b → le b c → le a c)
    (htotal : ∀ a b : A, le a b || le b a)
    (a b : A) (l : List A) (hab : le a b) (h : List.Sublist [a, b] l) :
    List.Sublist [a, b] (l.mergeSort le) :=
  List.pair_sublist_mergeSort htrans htotal hab h

lemma sortStage_eq_attach (f : SortField) (o : SortOrder) (l : List CutoffData)
    (h : ∀ x ∈ l, (sortKey f x).isSome) :
    ∃ l2 : List {x : CutoffData // (sortKey f x).isSome},
      l2.map Subtype.val = l
        ∧ sortStage f o l
            = (l2.mergeSort (fun a b => sortLe f o a.val b.val)).map Subtype.val := by
  have h1 : (l.attach.map (fun x => (⟨x.val, h x.val x.property⟩ :
      {z : CutoffData // (sortKey f z).isSome}))).map Subtype.val = l := by
    rw [List.map_map]
    conv_rhs => rw [← List.attach_map_subtype_val l]
    rfl
  refine ⟨l.attach.map (fun x => ⟨x.val, h x.val x.property⟩), h1, ?_⟩
  conv_lhs => rw [← h1]
  unfold sortStage
  exact (map_mergeSort_of {z : CutoffData // (sortKey f z).isSome} CutoffData
    (fun a b => sortLe f o a.val b.val) (sortLe f o) Subtype.val
    (l.attach.map (fun x => ⟨x.val, h x.val x.property⟩))
    (fun a _ b _ => rfl)).symm

lemma sortStage_pairwise (f : SortField) (o : SortOrder) (l : List CutoffData)
    (h : ∀ x ∈ l, (sortKey f x).isSome) :
    (sortStage f o l).Pairwise (fun a b => sortLe f o a b = true) := by
  obtain ⟨l2, _, h2⟩ := sortStage_eq_attach f o l h
  rw [h2, List.pairwise_map]
  exact List.sorted_mergeSort
    (fun a b c hab hbc => @sortLe_trans_of_isSome f o a.val b.val c.val b.property hab hbc)
    (fun a b => sortLe_total f o a.val b.val) l2

lemma mem_sortStage {f : SortField} {o : SortOrder} {l : List CutoffData}
    {x : CutoffData} : x ∈ sortStage f o l ↔ x ∈ l := by
  unfold sortStage
  exact List.mem_mergeSort

/-- C7: the sort stage is a stable numeric sort by the selected field.
The comparator returns 0 whenever a compared value is not a number; on
records with numeric keys the output is sorted with smaller keys first
(ascending) or larger keys first (descending); records with equal keys
keep their relative pre-sort order; the output is a permutation of the
input; and a list that the comparator already considers nondecreasing
(in particular one where all comparisons return 0) is left entirely
unchanged. -/
theorem C7_sort_stage :
    (∀ (f : SortField) (o : SortOrder) (a b : CutoffData),
        sortKey f a = none ∨ sortKey f b = none → sortCmp f o a b = 0)
    ∧ (∀ (f : SortField) (l : List CutoffData),
        (∀ x ∈ l, (sortKey f x).isSome) →
        (sortStage f .asc l).Pairwise
            (fun a b => (sortKey f a).getD 0 ≤ (sortKey f b).getD 0)
          ∧ (sortStage f .desc l).Pairwise
              (fun a b => (sortKey f b).getD 0 ≤ (sortKey f a).getD 0))
    ∧ (∀ (f : SortField) (o : SortOrder) (l : List CutoffData) (a b : CutoffData),
        (∀ x ∈ l, (sortKey f x).isSome) → List.Sublist [a, b] l →
        sortKey f a = sortKey f b → List.Sublist [a, b] (sortStage f o l))
    ∧ (∀ (f : SortField) (o : SortOrder) (l : List CutoffData),
        (sortStage f o l).Perm l)
    ∧ (∀ (f : SortField) (o : SortOrder) (l : List CutoffData),
        l.Pairwise (fun a b => sortCmp f o a b ≤ 0) → sortStage f o l = l) := by
  refine ⟨?_, ?_, ?_, ?_, ?_⟩
  · intro f o a b h
    unfold sortCmp
    rcases h with h | h
    · rw [h]
    · rw [h]
      cases sortKey f a <;> rfl
  · intro f l h
    constructor
    · refine (sortStage_pairwise f .asc l h).imp_of_mem ?_
      intro a b ha hb hle
      obtain ⟨x, hx⟩ := Option.isSome_iff_exists.mp (h a (mem_sortStage.mp ha))
      obtain ⟨y, hy⟩ := Option.isSome_iff_exists.mp (h b (mem_sortStage.mp hb))
      rw [hx, hy]
      simpa using (sortLe_asc_iff f hx hy).mp hle
    · refine (sortStage_pairwise f .desc l h).imp_of_mem ?_
      intro a b ha hb hle
      obtain ⟨x, hx⟩ := Option.isSome_iff_exists.mp (h a (mem_sortStage.mp ha))
      obtain ⟨y, hy⟩ := Option.isSome_iff_exists.mp (h b (mem_sortStage.mp hb))
      rw [hx, hy]
      simpa using (sortLe_desc_iff f hx hy).mp hle
  · intro f o l a b h hab hkey
    obtain ⟨l2, h1, h2⟩ := sortStage_eq_attach f o l h
    rw [← h1] at hab
    obtain ⟨c, hcsub, hcm⟩ := List.sublist_map_iff.mp hab
    rcases c with _ | ⟨x, c1⟩
    · simp at hcm
    rcases c1 with _ | ⟨y, c2⟩
    · simp at hcm
    rcases c2 with _ | ⟨z, c3⟩
    · simp only [List.map_cons, List.map_nil, List.cons.injEq, and_true] at hcm
      obtain ⟨hax, hby⟩ := hcm
      subst hax
      subst hby
      have hxy : sortLe f o x.val y.val = true :=
        sortLe_of_key_eq f o hkey x.property
      have hpair := pair_sublist_mergeSort_of {w : CutoffData // (sortKey f w).isSome}
        (fun a b => sortLe f o a.val b.val)
        (fun a b c hab2 hbc2 =>
          @sortLe_trans_of_isSome f o a.val b.val c.val b.property hab2 hbc2)
        (fun a b => sortLe_total f o a.val b.val) x y l2 hxy hcsub
      have hmap := hpair.map Subtype.val
      rw [← h2] at hmap
      simpa using hmap
    · simp at hcm
  · intro f o l
    exact List.mergeSort_perm l _
  · intro f o l hsorted
    unfold sortStage
    exact List.mergeSort_of_sorted (hsorted.imp (fun h => by simpa [sortLe] using h))

/-- Witness for C7: a two-record list with equal ranks keeps its order
through an ascending sort by rank. -/
theorem C7_witness :
    List.Sublist
      [(⟨some 5, some 1, "a", none, none, ""⟩ : CutoffData),
        ⟨some 5, some 2, "b", none, none, ""⟩]
      (sortStage .Rank .asc
        [⟨some 5, some 1, "a", none, none, ""⟩, ⟨some 5, some 2, "b", none, none, ""⟩]) :=
  C7_sort_stage.2.2.1 .Rank .asc
    [⟨some 5, some 1, "a", none, none, ""⟩, ⟨some 5, some 2, "b", none, none, ""⟩]
    ⟨some 5, some 1, "a", none, none, ""⟩ ⟨some 5, some 2, "b", none, none, ""⟩
    (by decide) (List.Sublist.refl _) rfl

/-! ## C9 -/

/-- C9: the pipeline never fabricates or modifies records — its result
is a reordering (the stable sort) of a selection (the two filter
stages) of the very records of the input dataset, and every visible
record is a member of the dataset. The dataset value itself is
untouched by construction: in the source the only mutating operation,
the in-place `.sort`, is applied to the fresh array produced by
`[...data]` or `data.filter`, never to `data`, which every stage only
reads. -/
theorem C9_frame (data : List CutoffData) (rF pF sF : String) (f : SortField)
    (o : SortOrder) (page : Nat) :
    (∃ kept, List.Sublist kept data
        ∧ (filteredAndSortedData data rF pF sF f o).Perm kept)
    ∧ (∀ x ∈ (applyPipeline data rF pF sF f o page).visible, x ∈ data) := by
  have hsub : List.Sublist (searchStage sF (thresholdStage rF pF data)) data := by
    have h1 : List.Sublist (thresholdStage rF pF data) data := by
      unfold thresholdStage
      split
      · exact List.filter_sublist _
      · exact List.Sublist.refl _
    have h2 : List.Sublist (searchStage sF (thresholdStage rF pF data))
        (thresholdStage rF pF data) := by
      unfold searchStage
      split
      · exact List.filter_sublist _
      · exact List.Sublist.refl _
    exact h2.trans h1
  constructor
  · exact ⟨_, hsub, List.mergeSort_perm _ _⟩
  · intro x hx
    have hx1 : x ∈ filteredAndSortedData data rF pF sF f o := by
      have hx0 : x ∈ paginatedData (filteredAndSortedData data rF pF sF f o) page := hx
      unfold paginatedData at hx0
      exact List.mem_of_mem_drop (List.mem_of_mem_take hx0)
    have hx2 : x ∈ searchStage sF (thresholdStage rF pF data) := by
      unfold filteredAndSortedData at hx1
      exact mem_sortStage.mp hx1
    exact hsub.subset hx2

/-- Witness for C9: on a one-record dataset with empty filters, the
single visible record is a member of the dataset. -/
theorem C9_witness :
    (⟨some 1, some 99, "c", some "i", some "n", "t"⟩ : CutoffData)
      ∈ [(⟨some 1, some 99, "c", some "i", some "n", "t"⟩ : CutoffData)] := by
  have hv : (applyPipeline [(⟨some 1, some 99, "c", some "i", some "n", "t"⟩ : CutoffData)]
      "" "" "" .Rank .asc 1).visible
      = [(⟨some 1, some 99, "c", some "i", some "n", "t"⟩ : CutoffData)] := by
    simp [applyPipeline, paginatedData, itemsPerPage, filteredAndSortedData,
      thresholdStage, searchStage, sortStage, jsTrim_empty]
  exact (C9_frame [⟨some 1, some 99, "c", some "i", some "n", "t"⟩] "" "" "" .Rank .asc 1).2
    _ (by rw [hv]; exact List.mem_cons_self _ _)
